import Mathlib

/-!
Verification of the order/inventory/review workflow of the e-commerce
backend: a shallow embedding of OrderService, InventoryService and
ReviewService together with the Sequelize model validations they write
through, followed by theorems about the embedded operations.

Conventions of the embedding:
* All the service entry points run inside one database transaction and
  call rollback on any thrown error, so an operation is a function from
  the committed state to `Except Err (new committed state)`; an `.error`
  result means the caller observes the argument state unchanged.
* DECIMAL(10,2) money columns are embedded as exact integers (counts of
  the smallest currency unit); the workflows only multiply them by integer
  quantities and sum, so the embedding is exact.  The average rating, the
  one truly fractional value, is a `Rat`.  Integer columns are `Int`/`Nat`.
* Sequelize model validations (the `validate:` blocks of the model files)
  run on every validated write; a model-validation failure is not one of
  the typed application errors, so the service catch blocks re-wrap it as
  a plain Error, modelled by the `generic` error kind.
-/

namespace ECommerce

/-- Error classes of src/backend/src/utils/errors.js; `generic` stands for a
plain JS Error (for example a Sequelize validation failure re-wrapped by a
service catch block). -/
inductive ErrKind where
  | validation
  | notFound
  | conflict
  | businessLogic
  | generic
  deriving DecidableEq

/-- A thrown error: its class and its message. -/
structure Err where
  kind : ErrKind
  msg : String
  deriving DecidableEq

/-! ## Inventory workflow on a single inventory row

InventoryService (second half of src/backend/src/services/CategoryService.js)
operates on the single inventory row of one product.  Only the quantity of
that row matters to these operations, so they are embedded as functions on
the current quantity. -/

/-- The Inventory model (src/unnamed/part_006) validates quantity with
min 0 on every validated instance write; writing a negative value throws a
Sequelize validation error and persists nothing.  The services re-wrap that
error as a plain Error. -/
def modelValidationErr : Err :=
  { kind := ErrKind.generic, msg := "Validation min on quantity failed" }

/-- A validated write of the quantity column through the Inventory model. -/
def inventoryWrite (newQuantity : Int) : Except Err Int :=
  if newQuantity < 0 then Except.error modelValidationErr
  else Except.ok newQuantity

/-- The operation argument of InventoryService.updateStock; any string other
than add, subtract or set is the default case of the switch. -/
inductive StockOperation where
  | add
  | subtract
  | set
  | other
  deriving DecidableEq

/-- InventoryService.updateStock on the current quantity of the product's
inventory row: add and set write through model validation; subtract first
rejects a negative result with BusinessLogicError; an unknown operation is a
ValidationError. -/
def updateStock (current amount : Int) (operation : StockOperation) : Except Err Int :=
  match operation with
  | StockOperation.add => inventoryWrite (current + amount)
  | StockOperation.subtract =>
      let newQuantity := current - amount
      if newQuantity < 0 then
        Except.error { kind := ErrKind.businessLogic, msg := "No hay suficiente stock disponible" }
      else inventoryWrite newQuantity
  | StockOperation.set => inventoryWrite amount
  | StockOperation.other =>
      Except.error { kind := ErrKind.validation, msg := "Operacion invalida" }

/-- InventoryService.reserveStock: rejects with BusinessLogicError when the
requested amount exceeds the current quantity, otherwise writes the
difference. -/
def reserveStock (current amount : Int) : Except Err Int :=
  if current < amount then
    Except.error { kind := ErrKind.businessLogic, msg := "Stock insuficiente" }
  else inventoryWrite (current - amount)

/-- InventoryService.releaseStock: adds the amount back unconditionally at
the service level; the model validation still guards the written value. -/
def releaseStock (current amount : Int) : Except Err Int :=
  inventoryWrite (current + amount)

/-- InventoryService.processInventoryAdjustment: applies a signed adjustment,
rejecting with BusinessLogicError when the result would be negative. -/
def processInventoryAdjustment (current adjustment : Int) : Except Err Int :=
  let newQuantity := current + adjustment
  if newQuantity < 0 then
    Except.error { kind := ErrKind.businessLogic, msg := "El ajuste resultaria en stock negativo" }
  else inventoryWrite newQuantity

/-- One call to an InventoryService mutation on the product's row. -/
inductive InvOp where
  | update (amount : Int) (operation : StockOperation)
  | reserve (amount : Int)
  | release (amount : Int)
  | adjust (amount : Int)

/-- Dispatch one inventory operation. -/
def applyInvOp (current : Int) (op : InvOp) : Except Err Int :=
  match op with
  | InvOp.update amount operation => updateStock current amount operation
  | InvOp.reserve amount => reserveStock current amount
  | InvOp.release amount => releaseStock current amount
  | InvOp.adjust amount => processInventoryAdjustment current amount

/-- A failed operation persists nothing, so the row keeps its quantity. -/
def runInvOp (current : Int) (op : InvOp) : Int :=
  match applyInvOp current op with
  | Except.ok q => q
  | Except.error _ => current

/-- The quantity of the row after a sequence of inventory operations. -/
def runInvOps (current : Int) (ops : List InvOp) : Int :=
  ops.foldl runInvOp current

end ECommerce

namespace ECommerce

/-! ## Relational state

The rows the order and review workflows touch, with the columns those
workflows read or write.  Timestamps, slugs and other columns no claim
mentions are omitted. -/

/-- Order.status enum (src/backend/src/models/Order.js). -/
inductive OrderStatus where
  | pending
  | confirmed
  | shipped
  | delivered
  | cancelled
  deriving DecidableEq

/-- Order.payment_status enum. -/
inductive PaymentStatus where
  | pending
  | paid
  | failed
  | refunded
  deriving DecidableEq

/-- The validStatuses membership check of OrderService.updateOrderStatus,
combined with the typed enum: an unrecognized string parses to none. -/
def OrderStatus.ofString (s : String) : Option OrderStatus :=
  if s = "pending" then some OrderStatus.pending
  else if s = "confirmed" then some OrderStatus.confirmed
  else if s = "shipped" then some OrderStatus.shipped
  else if s = "delivered" then some OrderStatus.delivered
  else if s = "cancelled" then some OrderStatus.cancelled
  else none

/-- A products row (src/backend/src/models/Product.js).  The model defines
name, description, price, category_id, sku, image_url and is_active; the
columns the workflows read are kept.  The DECIMAL(10,2) price is embedded
as an exact integer count of hundredths; the workflow only multiplies it by
integer quantities and sums, so the embedding is exact.  Note the model
defines no average_rating and no review_count attribute. -/
structure Product where
  id : Nat
  name : String
  price : Int
  deriving DecidableEq

/-- An inventory row: one per product, quantity validated min 0 by the
model on every validated write. -/
structure InventoryRow where
  product_id : Nat
  quantity : Int
  deriving DecidableEq

/-- An orders row. -/
structure OrderRow where
  id : Nat
  user_id : Nat
  status : OrderStatus
  payment_status : PaymentStatus
  total_amount : Int
  shipping_address : String
  billing_address : String
  deriving DecidableEq

/-- An order_items row. -/
structure OrderItemRow where
  id : Nat
  order_id : Nat
  product_id : Nat
  quantity : Int
  unit_price : Int
  total_price : Int
  deriving DecidableEq

/-- A reviews row. -/
structure ReviewRow where
  id : Nat
  product_id : Nat
  user_id : Nat
  rating : Int
  comment : Option String
  is_verified_purchase : Bool
  deriving DecidableEq

/-- The committed database state seen by the services, with the
auto-increment counters for the primary keys the workflows create. -/
structure Db where
  users : List Nat
  products : List Product
  inventory : List InventoryRow
  orders : List OrderRow
  orderItems : List OrderItemRow
  reviews : List ReviewRow
  nextOrderId : Nat
  nextOrderItemId : Nat
  nextReviewId : Nat
  deriving DecidableEq

/-- Product.findByPk. -/
def Db.findProduct (db : Db) (pid : Nat) : Option Product :=
  db.products.find? (fun p => p.id == pid)

/-- Inventory.findOne({where: {product_id}}). -/
def Db.findInventory (db : Db) (pid : Nat) : Option InventoryRow :=
  db.inventory.find? (fun i => i.product_id == pid)

/-- Consistency of the auto-increment counters with the stored rows: ids
handed out so far are below the next fresh id.  The running system
maintains this because every insert uses the next counter value. -/
def Db.Wf (db : Db) : Prop :=
  (∀ o ∈ db.orders, o.id < db.nextOrderId) ∧
  (∀ it ∈ db.orderItems, it.order_id < db.nextOrderId) ∧
  (∀ r ∈ db.reviews, r.id < db.nextReviewId)

instance (db : Db) : Decidable db.Wf := by
  unfold Db.Wf
  infer_instance

/-! ## Raw inventory adjustments

OrderService reserves and releases stock with
Inventory.update({quantity: sequelize.literal('quantity - n')}, {where})
and the matching '+ n' literal on release.
Sequelize cannot validate a literal expression and the sync-generated
tables carry no CHECK constraint, so this write is an unconditional
increment of the matching rows. -/

/-- Add delta to the quantity of every inventory row of the product. -/
def adjustQty (pid : Nat) (delta : Int) (inv : List InventoryRow) : List InventoryRow :=
  inv.map (fun r => if r.product_id == pid then { r with quantity := r.quantity + delta } else r)

/-- Apply a list of (product_id, delta) raw adjustments in order. -/
def applyDeltas (inv : List InventoryRow) : List (Nat × Int) → List InventoryRow
  | [] => inv
  | d :: ds => applyDeltas (adjustQty d.1 d.2 inv) ds

/-- Net delta a list of adjustments applies to rows of one product. -/
def deltaSum (pid : Nat) (ds : List (Nat × Int)) : Int :=
  ((ds.filter (fun d => pid == d.1)).map (fun d => d.2)).sum

/-! ## Order workflow (src/unnamed/part_008, OrderService) -/

/-- One requested item of a createOrder call. -/
structure OrderItemReq where
  product_id : Nat
  quantity : Int
  deriving DecidableEq

/-- The order-level fields of a createOrder call. -/
structure OrderData where
  user_id : Nat
  shipping_address : String
  billing_address : String
  deriving DecidableEq

/-- The per-item test of OrderService.validateStockAvailability: the item is
unavailable when its inventory row is missing or holds less than the
requested quantity. -/
def stockShort (db : Db) (it : OrderItemReq) : Bool :=
  match db.findInventory it.product_id with
  | none => true
  | some inv => decide (inv.quantity < it.quantity)

/-- The display name validateStockAvailability pushes for an unavailable
item: the product name, or a placeholder when the product row is missing. -/
def itemDisplayName (db : Db) (it : OrderItemReq) : String :=
  match db.findProduct it.product_id with
  | some p => p.name
  | none => "Producto ID " ++ toString it.product_id

/-- OrderService.validateStockAvailability: the names of the unavailable
items, in request order; the batch is available when this list is empty. -/
def validateStockAvailability (db : Db) (items : List OrderItemReq) : List String :=
  items.filterMap (fun it => if stockShort db it then some (itemDisplayName db it) else none)

/-- OrderService.calculateOrderTotal: left fold of price times quantity over
the requested items at current prices, NotFoundError on a missing
product. -/
def calculateOrderTotal (db : Db) : List OrderItemReq → Int → Except Err Int
  | [], total => Except.ok total
  | it :: rest, total =>
    match db.findProduct it.product_id with
    | none =>
      Except.error
        { kind := ErrKind.notFound,
          msg := "Producto con ID " ++ toString it.product_id ++ " no encontrado" }
    | some p => calculateOrderTotal db rest (total + p.price * it.quantity)

/-- The price the workflow reads for a product (0 when absent; on every
successful order each referenced product exists). -/
def priceAt (db : Db) (pid : Nat) : Int :=
  match db.findProduct pid with
  | some p => p.price
  | none => 0

/-- The claimed order total: the sum over the requested items of the
product price at order time times the requested quantity. -/
def orderTotalSpec (db : Db) (items : List OrderItemReq) : Int :=
  (items.map (fun it => priceAt db it.product_id * it.quantity)).sum

/-- Sequelize validation of the Order model on create: user_id min 1,
total_amount min 0, both addresses between 10 and 1000 characters. -/
def orderCreateValid (o : OrderRow) : Bool :=
  decide (1 ≤ o.user_id) && decide (0 ≤ o.total_amount) &&
  decide (10 ≤ o.shipping_address.length) && decide (o.shipping_address.length ≤ 1000) &&
  decide (10 ≤ o.billing_address.length) && decide (o.billing_address.length ≤ 1000)

/-- Sequelize validation of the OrderItem model on create (src/unnamed/
part_005): order_id and product_id min 1, quantity min 1, unit_price and
total_price min 0. -/
def orderItemCreateValid (it : OrderItemRow) : Bool :=
  decide (1 ≤ it.order_id) && decide (1 ≤ it.product_id) &&
  decide (1 ≤ it.quantity) && decide (0 ≤ it.unit_price) && decide (0 ≤ it.total_price)

/-- The item loop of OrderService.createOrder: for each requested item look
up the product (NotFoundError when absent), insert a validated OrderItem
snapshotting unit_price from the current product price (the beforeCreate
hook recomputes total_price only when the passed value is falsy), and
decrement the product's inventory with a raw literal update. -/
def createOrderItemsLoop (orderId : Nat) : Db → List OrderItemReq → Except Err Db
  | db, [] => Except.ok db
  | db, item :: rest =>
    match db.findProduct item.product_id with
    | none =>
      Except.error
        { kind := ErrKind.notFound,
          msg := "Producto con ID " ++ toString item.product_id ++ " no encontrado" }
    | some product =>
      let oi : OrderItemRow :=
        { id := db.nextOrderItemId, order_id := orderId, product_id := item.product_id,
          quantity := item.quantity, unit_price := product.price,
          total_price := product.price * item.quantity }
      if orderItemCreateValid oi then
        let oi2 : OrderItemRow :=
          { oi with total_price :=
              if oi.total_price = 0 then oi.unit_price * oi.quantity else oi.total_price }
        let db2 : Db :=
          { db with orderItems := db.orderItems ++ [oi2],
                    nextOrderItemId := db.nextOrderItemId + 1,
                    inventory := adjustQty item.product_id (-item.quantity) db.inventory }
        createOrderItemsLoop orderId db2 rest
      else
        Except.error { kind := ErrKind.generic, msg := "Error al crear pedido: Validation error" }

/-- OrderService.createOrder: validate the user, reject empty items with
ValidationError, reject insufficient stock with BusinessLogicError naming
the unavailable products, compute the total at current prices, insert the
order (status pending, payment_status pending) and its items, and reserve
stock; all inside one transaction, so an error leaves the committed state
untouched. -/
def createOrder (db : Db) (orderData : OrderData) (items : List OrderItemReq) :
    Except Err (Db × Nat) :=
  if orderData.user_id ∉ db.users then
    Except.error { kind := ErrKind.notFound, msg := "Usuario no encontrado" }
  else if items = [] then
    Except.error { kind := ErrKind.validation, msg := "El pedido debe contener al menos un item" }
  else if validateStockAvailability db items ≠ [] then
    Except.error
      { kind := ErrKind.businessLogic,
        msg := "Stock insuficiente para: " ++
        String.intercalate ", " (validateStockAvailability db items) }
  else
    match calculateOrderTotal db items 0 with
    | Except.error e => Except.error e
    | Except.ok totalAmount =>
      let order : OrderRow :=
        { id := db.nextOrderId, user_id := orderData.user_id,
          status := OrderStatus.pending, payment_status := PaymentStatus.pending,
          total_amount := totalAmount, shipping_address := orderData.shipping_address,
          billing_address := orderData.billing_address }
      if orderCreateValid order then
        match createOrderItemsLoop order.id
            { db with orders := db.orders ++ [order], nextOrderId := db.nextOrderId + 1 }
            items with
        | Except.error e => Except.error e
        | Except.ok db2 => Except.ok (db2, order.id)
      else
        Except.error { kind := ErrKind.generic, msg := "Error al crear pedido: Validation error" }

/-- OrderService.releaseOrderStock: add each of the order's line-item
quantities back to the product's inventory with raw literal updates, in
line-item order. -/
def releaseOrderStock (db : Db) (orderId : Nat) : Db :=
  let ds := (db.orderItems.filter (fun it => it.order_id == orderId)).map
    (fun it => (it.product_id, it.quantity))
  { db with inventory := applyDeltas db.inventory ds }

/-- The order.update({status}) write: set the status of the row with the
given primary key. -/
def Db.setOrderStatus (db : Db) (orderId : Nat) (st : OrderStatus) : Db :=
  { db with orders := db.orders.map (fun o =>
      if o.id == orderId then { o with status := st } else o) }

/-- OrderService.updateOrderStatus: look up the order, reject an
unrecognized status string with ValidationError, release the order's stock
when moving to cancelled from a non-cancelled status, re-validate stock
when confirming a pending order, then write the status.  The payment_status
column is not touched on this path. -/
def updateOrderStatus (db : Db) (orderId : Nat) (newStatus : String) : Except Err Db :=
  match db.orders.find? (fun o => o.id == orderId) with
  | none => Except.error { kind := ErrKind.notFound, msg := "Pedido no encontrado" }
  | some order =>
    match OrderStatus.ofString newStatus with
    | none => Except.error { kind := ErrKind.validation, msg := "Estado de pedido invalido" }
    | some st =>
      let db1 :=
        if st = OrderStatus.cancelled ∧ order.status ≠ OrderStatus.cancelled then
          releaseOrderStock db orderId
        else db
      if st = OrderStatus.confirmed ∧ order.status = OrderStatus.pending then
        if validateStockAvailability db1
            ((db1.orderItems.filter (fun it => it.order_id == orderId)).map
              (fun it => { product_id := it.product_id, quantity := it.quantity })) ≠ [] then
          Except.error
            { kind := ErrKind.businessLogic,
              msg := "Stock insuficiente para confirmar el pedido" }
        else Except.ok (Db.setOrderStatus db1 orderId st)
      else Except.ok (Db.setOrderStatus db1 orderId st)

/-- OrderService.cancelOrder: ConflictError when already cancelled,
BusinessLogicError when delivered, otherwise release the order's stock and
write status cancelled together with payment_status refunded. -/
def cancelOrder (db : Db) (orderId : Nat) : Except Err Db :=
  match db.orders.find? (fun o => o.id == orderId) with
  | none => Except.error { kind := ErrKind.notFound, msg := "Pedido no encontrado" }
  | some order =>
    if order.status = OrderStatus.cancelled then
      Except.error { kind := ErrKind.conflict, msg := "El pedido ya esta cancelado" }
    else if order.status = OrderStatus.delivered then
      Except.error
        { kind := ErrKind.businessLogic,
          msg := "No se puede cancelar un pedido ya entregado" }
    else
      let db1 := releaseOrderStock db orderId
      Except.ok { db1 with orders := db1.orders.map (fun o =>
          if o.id == orderId then
            { o with status := OrderStatus.cancelled,
                     payment_status := PaymentStatus.refunded }
          else o) }

/-- The request validation of OrderController.createOrder
(src/unnamed/part_004): missing user or empty items, then any item with a
falsy product_id or a non-positive quantity, are rejected with
ValidationError before the service is called. -/
def controllerValidateCreateOrder (userId : Nat) (items : List OrderItemReq) :
    Except Err Unit :=
  if userId = 0 ∨ items = [] then
    Except.error { kind := ErrKind.validation, msg := "Usuario y items son requeridos" }
  else if items.any (fun it => it.product_id == 0 || decide (it.quantity ≤ 0)) then
    Except.error
      { kind := ErrKind.validation,
        msg := "Cada item debe tener product_id y quantity valida" }
  else Except.ok ()

/-! ## Review workflow (src/backend/src/services/ReviewService.js) -/

/-- ReviewService.verifyPurchase: some order item of the product sits on an
order of this user whose status is confirmed, shipped or delivered. -/
def verifyPurchase (db : Db) (userId productId : Nat) : Bool :=
  db.orderItems.any (fun it =>
    it.product_id == productId &&
    db.orders.any (fun o =>
      o.id == it.order_id && o.user_id == userId &&
      (o.status == OrderStatus.confirmed || o.status == OrderStatus.shipped ||
       o.status == OrderStatus.delivered)))

/-- The purchase-verification condition as the specification states it. -/
def verifiedPurchaseSpec (db : Db) (userId productId : Nat) : Prop :=
  ∃ it ∈ db.orderItems, it.product_id = productId ∧
    ∃ o ∈ db.orders, o.id = it.order_id ∧ o.user_id = userId ∧
      (o.status = OrderStatus.confirmed ∨ o.status = OrderStatus.shipped ∨
       o.status = OrderStatus.delivered)

/-- Sequelize validation of the Review model on create: product_id and
user_id min 1, rating an integer between 1 and 5, comment at most 1000
characters. -/
def reviewCreateValid (r : ReviewRow) : Bool :=
  decide (1 ≤ r.product_id) && decide (1 ≤ r.user_id) &&
  decide (1 ≤ r.rating) && decide (r.rating ≤ 5) &&
  (match r.comment with
   | none => true
   | some c => decide (c.length ≤ 1000))

/-- JavaScript Math.round: floor of x plus one half. -/
def jsRound (x : Rat) : Int := Int.floor (x + 1 / 2)

/-- Math.round(x * 10) / 10, the one-decimal rounding the service applies
to the average rating. -/
def roundTo1 (x : Rat) : Rat := (jsRound (x * 10) : Rat) / 10

/-- The aggregate ReviewService.updateProductAverageRating computes: the
AVG(rating) over the product's reviews with the empty-aggregate NULL
coerced to 0 by parseFloat(x || 0), rounded to one decimal, and the
COUNT. -/
def computedRatingAggregate (db : Db) (productId : Nat) : Rat × Nat :=
  let rs := db.reviews.filter (fun r => r.product_id == productId)
  let totalReviews := rs.length
  let averageRating : Rat :=
    if totalReviews = 0 then 0
    else ((rs.map (fun r => (r.rating : Rat))).sum) / (totalReviews : Rat)
  (roundTo1 averageRating, totalReviews)

/-- The attributes the Product model defines (src/backend/src/models/
Product.js); Sequelize static Model.update intersects the keys of the
passed values with these before writing. -/
def productModelAttributes : List String :=
  ["name", "description", "price", "category_id", "sku", "image_url", "is_active"]

/-- The keys of Product.update({average_rating, review_count}) that survive
Sequelize's intersection with the Product model's attributes.  Neither key
is a model attribute (and neither column exists in the SQL schemas), so the
list is empty and the update writes no data column. -/
def productRatingUpdateFields : List String :=
  (["average_rating", "review_count"].filter (fun k => productModelAttributes.contains k))

/-- ReviewService.updateProductAverageRating: computes the aggregate and
issues Product.update({average_rating, review_count}, {where: {id}}).
Because productRatingUpdateFields is empty, the update writes nothing and
every product row keeps its stored value. -/
def updateProductAverageRating (db : Db) (productId : Nat) : Db :=
  let agg := computedRatingAggregate db productId
  let written := productRatingUpdateFields
  if written = [] then db
  else
    let _ := agg
    db

/-- The input fields of ReviewService.createReview. -/
structure ReviewData where
  product_id : Nat
  user_id : Nat
  rating : Int
  comment : Option String
  deriving DecidableEq

/-- ReviewService.createReview: NotFoundError for a missing user or
product, ConflictError when this (user, product) pair already has a review
(the Review model's beforeCreate hook repeats the same check), then insert
the review with is_verified_purchase computed from the order history and
recompute the product's aggregate rating, all in one transaction. -/
def createReview (db : Db) (rd : ReviewData) : Except Err (Db × Nat) :=
  if rd.user_id ∉ db.users then
    Except.error { kind := ErrKind.notFound, msg := "Usuario no encontrado" }
  else if (db.findProduct rd.product_id).isNone then
    Except.error { kind := ErrKind.notFound, msg := "Producto no encontrado" }
  else if (db.reviews.find? (fun r =>
      r.product_id == rd.product_id && r.user_id == rd.user_id)).isSome then
    Except.error { kind := ErrKind.conflict, msg := "Ya has resenado este producto" }
  else
    let review : ReviewRow :=
      { id := db.nextReviewId, product_id := rd.product_id, user_id := rd.user_id,
        rating := rd.rating, comment := rd.comment,
        is_verified_purchase := verifyPurchase db rd.user_id rd.product_id }
    if reviewCreateValid review then
      let db1 : Db :=
        { db with reviews := db.reviews ++ [review], nextReviewId := db.nextReviewId + 1 }
      Except.ok (updateProductAverageRating db1 rd.product_id, review.id)
    else
      Except.error { kind := ErrKind.generic, msg := "Error al crear resena: Validation error" }

/-- ReviewService.deleteReview: NotFoundError when absent, otherwise delete
the row and recompute the product's aggregate rating. -/
def deleteReview (db : Db) (reviewId : Nat) : Except Err Db :=
  match db.reviews.find? (fun r => r.id == reviewId) with
  | none => Except.error { kind := ErrKind.notFound, msg := "Resena no encontrada" }
  | some review =>
    let db1 : Db := { db with reviews := db.reviews.filter (fun r => !(r.id == reviewId)) }
    Except.ok (updateProductAverageRating db1 review.product_id)

/-- The result a caller observes from a transactional call: the value on
commit, none on rollback. -/
def okResult {α : Type} (r : Except Err α) : Option α :=
  match r with
  | Except.ok a => some a
  | Except.error _ => none

instance {ε α : Type} [DecidableEq ε] [DecidableEq α] : DecidableEq (Except ε α) := fun a b =>
  match a, b with
  | Except.error e, Except.error f =>
    if h : e = f then isTrue (by rw [h]) else isFalse (fun hc => h (by injection hc))
  | Except.ok x, Except.ok y =>
    if h : x = y then isTrue (by rw [h]) else isFalse (fun hc => h (by injection hc))
  | Except.error _, Except.ok _ => isFalse (fun hc => Except.noConfusion hc)
  | Except.ok _, Except.error _ => isFalse (fun hc => Except.noConfusion hc)

/-- The inventory rows after adding back, product by product, the summed
quantities of one order's line items: the claimed effect of a full stock
release for that order. -/
def releasedInventorySpec (db : Db) (orderId : Nat) : List InventoryRow :=
  let ds := (db.orderItems.filter (fun it => it.order_id == orderId)).map
    (fun it => (it.product_id, it.quantity))
  db.inventory.map (fun r => { r with quantity := r.quantity + deltaSum r.product_id ds })

/-! ## Concrete states used to evaluate the operations

Small databases used as concrete inputs below.  Addresses are 15
characters, satisfying the 10 to 1000 character model validation. -/

/-- A valid address literal. -/
def exAddr : String := "Calle Falsa 123"

/-- One user, one product (price 10) with stock 8 under product id 2. -/
def exDb2 : Db :=
  { users := [1], products := [{ id := 2, name := "Gadget", price := 5 }],
    inventory := [{ product_id := 2, quantity := 8 }], orders := [], orderItems := [],
    reviews := [], nextOrderId := 1, nextOrderItemId := 1, nextReviewId := 1 }

/-- Order data for user 1 with valid addresses. -/
def exOd2 : OrderData :=
  { user_id := 1, shipping_address := exAddr, billing_address := exAddr }

/-- One user, one product (price 10) with stock 5, nothing else. -/
def exDb3 : Db :=
  { users := [1], products := [{ id := 1, name := "Widget", price := 10 }],
    inventory := [{ product_id := 1, quantity := 5 }], orders := [], orderItems := [],
    reviews := [], nextOrderId := 1, nextOrderItemId := 1, nextReviewId := 1 }

/-- Order data for user 1 with valid addresses. -/
def exOd3 : OrderData :=
  { user_id := 1, shipping_address := exAddr, billing_address := exAddr }

/-- The state after createOrder on exDb3 for two units of product 1: the
pending order 1 with total 20, its line item, and stock reduced to 3. -/
def exDb3c : Db :=
  { users := [1], products := [{ id := 1, name := "Widget", price := 10 }],
    inventory := [{ product_id := 1, quantity := 3 }],
    orders := [{ id := 1, user_id := 1, status := OrderStatus.pending,
                 payment_status := PaymentStatus.pending, total_amount := 20,
                 shipping_address := exAddr, billing_address := exAddr }],
    orderItems := [{ id := 1, order_id := 1, product_id := 1, quantity := 2,
                     unit_price := 10, total_price := 20 }],
    reviews := [], nextOrderId := 2, nextOrderItemId := 2, nextReviewId := 1 }

/-- A pending, payment-pending order 1 for two units of product 1, with
stock currently 3. -/
def exDb4 : Db :=
  { users := [1], products := [{ id := 1, name := "Widget", price := 10 }],
    inventory := [{ product_id := 1, quantity := 3 }],
    orders := [{ id := 1, user_id := 1, status := OrderStatus.pending,
                 payment_status := PaymentStatus.pending, total_amount := 20,
                 shipping_address := exAddr, billing_address := exAddr }],
    orderItems := [{ id := 1, order_id := 1, product_id := 1, quantity := 2,
                     unit_price := 10, total_price := 20 }],
    reviews := [], nextOrderId := 2, nextOrderItemId := 2, nextReviewId := 1 }

/-- A delivered order 1 for two units of product 1. -/
def exDb5 : Db :=
  { users := [1], products := [{ id := 1, name := "Widget", price := 10 }],
    inventory := [{ product_id := 1, quantity := 3 }],
    orders := [{ id := 1, user_id := 1, status := OrderStatus.delivered,
                 payment_status := PaymentStatus.paid, total_amount := 20,
                 shipping_address := exAddr, billing_address := exAddr }],
    orderItems := [{ id := 1, order_id := 1, product_id := 1, quantity := 2,
                     unit_price := 10, total_price := 20 }],
    reviews := [], nextOrderId := 2, nextOrderItemId := 2, nextReviewId := 1 }

/-- One user, one product (price 10) with stock 5, nothing else. -/
def exDb6 : Db :=
  { users := [1], products := [{ id := 1, name := "Widget", price := 10 }],
    inventory := [{ product_id := 1, quantity := 5 }], orders := [], orderItems := [],
    reviews := [], nextOrderId := 1, nextOrderItemId := 1, nextReviewId := 1 }

/-- Order data for user 1 with valid addresses. -/
def exOd6 : OrderData :=
  { user_id := 1, shipping_address := exAddr, billing_address := exAddr }

/-- The state after createOrder on exDb6 for two units of product 1. -/
def exDb6c : Db :=
  { users := [1], products := [{ id := 1, name := "Widget", price := 10 }],
    inventory := [{ product_id := 1, quantity := 3 }],
    orders := [{ id := 1, user_id := 1, status := OrderStatus.pending,
                 payment_status := PaymentStatus.pending, total_amount := 20,
                 shipping_address := exAddr, billing_address := exAddr }],
    orderItems := [{ id := 1, order_id := 1, product_id := 1, quantity := 2,
                     unit_price := 10, total_price := 20 }],
    reviews := [], nextOrderId := 2, nextOrderItemId := 2, nextReviewId := 1 }

/-- One user, one product (price 10) with stock 5, nothing else. -/
def exDb7 : Db :=
  { users := [1], products := [{ id := 1, name := "Widget", price := 10 }],
    inventory := [{ product_id := 1, quantity := 5 }], orders := [], orderItems := [],
    reviews := [], nextOrderId := 1, nextOrderItemId := 1, nextReviewId := 1 }

/-- Order data for user 1 with valid addresses. -/
def exOd7 : OrderData :=
  { user_id := 1, shipping_address := exAddr, billing_address := exAddr }

/-- User 1 has a confirmed, paid order for product 1; no reviews yet. -/
def exDb8 : Db :=
  { users := [1], products := [{ id := 1, name := "Widget", price := 10 }],
    inventory := [{ product_id := 1, quantity := 5 }],
    orders := [{ id := 1, user_id := 1, status := OrderStatus.confirmed,
                 payment_status := PaymentStatus.paid, total_amount := 20,
                 shipping_address := exAddr, billing_address := exAddr }],
    orderItems := [{ id := 1, order_id := 1, product_id := 1, quantity := 2,
                     unit_price := 10, total_price := 20 }],
    reviews := [], nextOrderId := 2, nextOrderItemId := 2, nextReviewId := 1 }

/-- Review data: user 1 reviews product 1 with rating 5. -/
def exRd8 : ReviewData :=
  { product_id := 1, user_id := 1, rating := 5, comment := none }

/-- The state after createReview on exDb8: the verified review stored. -/
def exDb8c : Db :=
  { exDb8 with
    reviews := [{ id := 1, product_id := 1, user_id := 1, rating := 5,
                  comment := none, is_verified_purchase := true }],
    nextReviewId := 2 }

/-- User 1 already has a review of product 1. -/
def exDb9 : Db :=
  { users := [1], products := [{ id := 1, name := "Widget", price := 10 }],
    inventory := [{ product_id := 1, quantity := 5 }], orders := [], orderItems := [],
    reviews := [{ id := 1, product_id := 1, user_id := 1, rating := 4,
                  comment := none, is_verified_purchase := false }],
    nextOrderId := 1, nextOrderItemId := 1, nextReviewId := 2 }

/-- A second review attempt by user 1 on product 1. -/
def exRd9 : ReviewData :=
  { product_id := 1, user_id := 1, rating := 5, comment := none }

/-- Product 1 carries exactly one review (id 1, rating 3). -/
def exDb10 : Db :=
  { users := [1], products := [{ id := 1, name := "Widget", price := 10 }],
    inventory := [{ product_id := 1, quantity := 5 }], orders := [], orderItems := [],
    reviews := [{ id := 1, product_id := 1, user_id := 1, rating := 3,
                  comment := none, is_verified_purchase := false }],
    nextOrderId := 1, nextOrderItemId := 1, nextReviewId := 2 }

end ECommerce

namespace ECommerce

/-! ## Theorems about the inventory workflow -/

theorem inventoryWrite_ok_nonneg {n q2 : Int} (h : inventoryWrite n = Except.ok q2) :
    0 ≤ q2 := by
  unfold inventoryWrite at h
  split at h
  · exact Except.noConfusion h
  · injection h with h2
    omega

theorem applyInvOp_ok_nonneg {q q2 : Int} {op : InvOp}
    (h : applyInvOp q op = Except.ok q2) : 0 ≤ q2 := by
  cases op with
  | update amount operation =>
    cases operation with
    | add =>
      simp only [applyInvOp, updateStock] at h
      exact inventoryWrite_ok_nonneg h
    | subtract =>
      simp only [applyInvOp, updateStock] at h
      split at h
      · exact Except.noConfusion h
      · exact inventoryWrite_ok_nonneg h
    | set =>
      simp only [applyInvOp, updateStock] at h
      exact inventoryWrite_ok_nonneg h
    | other =>
      simp only [applyInvOp, updateStock] at h
      exact Except.noConfusion h
  | reserve amount =>
    simp only [applyInvOp, reserveStock] at h
    split at h
    · exact Except.noConfusion h
    · exact inventoryWrite_ok_nonneg h
  | release amount =>
    simp only [applyInvOp, releaseStock] at h
    exact inventoryWrite_ok_nonneg h
  | adjust amount =>
    simp only [applyInvOp, processInventoryAdjustment] at h
    split at h
    · exact Except.noConfusion h
    · exact inventoryWrite_ok_nonneg h

theorem runInvOp_nonneg (q : Int) (op : InvOp) (hq : 0 ≤ q) : 0 ≤ runInvOp q op := by
  unfold runInvOp
  cases h : applyInvOp q op with
  | ok q2 => exact applyInvOp_ok_nonneg h
  | error e => exact hq

theorem runInvOps_nonneg (q : Int) (ops : List InvOp) (hq : 0 ≤ q) :
    0 ≤ runInvOps q ops := by
  induction ops generalizing q with
  | nil => exact hq
  | cons op rest ih =>
    have h1 : 0 ≤ runInvOp q op := runInvOp_nonneg q op hq
    simpa [runInvOps, List.foldl] using ih (runInvOp q op) h1

/-- Claim C1: for every product, after any sequence of inventory operations
(updateStock in modes add, subtract and set, reserveStock, releaseStock,
processInventoryAdjustment) the persisted inventory quantity stays
nonnegative, because the Inventory model validates min 0 on every write; in
particular updateStock in mode set of a negative amount is rejected by that
validation and persists nothing. -/
theorem claim_C1_inventory_nonneg (q a : Int) (ops : List InvOp)
    (hq : 0 ≤ q) (ha : a < 0) :
    0 ≤ runInvOps q ops ∧
      updateStock q a StockOperation.set = Except.error modelValidationErr := by
  refine ⟨runInvOps_nonneg q ops hq, ?_⟩
  unfold updateStock inventoryWrite
  rw [if_pos ha]

theorem claim_C1_witness :
    0 ≤ runInvOps 5
        [InvOp.update 3 StockOperation.add, InvOp.reserve 4, InvOp.release 2,
         InvOp.adjust (-3), InvOp.update (-7) StockOperation.set,
         InvOp.update 100 StockOperation.subtract] ∧
      updateStock 5 (-7) StockOperation.set = Except.error modelValidationErr :=
  claim_C1_inventory_nonneg 5 (-7)
    [InvOp.update 3 StockOperation.add, InvOp.reserve 4, InvOp.release 2,
     InvOp.adjust (-3), InvOp.update (-7) StockOperation.set,
     InvOp.update 100 StockOperation.subtract]
    (by decide) (by decide)

/-! ## List helpers -/

theorem map_ext_mem {α β : Type} (l : List α) (f g : α → β)
    (h : ∀ a ∈ l, f a = g a) : l.map f = l.map g := by
  induction l with
  | nil => rfl
  | cons a t ih =>
    simp only [List.map_cons, h a (List.mem_cons_self a t)]
    rw [ih (fun x hx => h x (List.mem_cons_of_mem a hx))]

theorem find?_append_of_none {α : Type} {p : α → Bool} :
    ∀ {l : List α} (l2 : List α), (∀ x ∈ l, p x = false) →
      (l ++ l2).find? p = l2.find? p
  | [], _, _ => rfl
  | a :: t, l2, h => by
    have ha := h a (List.mem_cons_self a t)
    have ih := find?_append_of_none (l := t) l2 (fun x hx => h x (List.mem_cons_of_mem a hx))
    simp [List.find?, ha, ih]

theorem filter_eq_nil_of {α : Type} {p : α → Bool} :
    ∀ {l : List α}, (∀ x ∈ l, p x = false) → l.filter p = []
  | [], _ => rfl
  | a :: t, h => by
    have ha := h a (List.mem_cons_self a t)
    have ih := filter_eq_nil_of (l := t) (fun x hx => h x (List.mem_cons_of_mem a hx))
    simp [List.filter_cons, ha, ih]

theorem filter_eq_self_of {α : Type} {p : α → Bool} :
    ∀ {l : List α}, (∀ x ∈ l, p x = true) → l.filter p = l
  | [], _ => rfl
  | a :: t, h => by
    have ha := h a (List.mem_cons_self a t)
    have ih := filter_eq_self_of (l := t) (fun x hx => h x (List.mem_cons_of_mem a hx))
    simp [List.filter_cons, ha, ih]

theorem find?_isSome_of_mem {α : Type} {p : α → Bool} {x : α} :
    ∀ {l : List α}, x ∈ l → p x = true → (l.find? p).isSome = true
  | [], hx, _ => absurd hx (List.not_mem_nil x)
  | a :: t, hx, hp => by
    by_cases ha : p a = true
    · simp [List.find?, ha]
    · have hxt : x ∈ t := by
        cases hx with
        | head => exact absurd hp ha
        | tail _ h => exact h
      have ih := find?_isSome_of_mem hxt hp
      simp [List.find?, Bool.of_not_eq_true ha, ih]

/-! ## Raw adjustment algebra -/

theorem deltaSum_nil (pid : Nat) : deltaSum pid [] = 0 := rfl

theorem deltaSum_cons (pid : Nat) (d : Nat × Int) (ds : List (Nat × Int)) :
    deltaSum pid (d :: ds) = (if pid == d.1 then d.2 else 0) + deltaSum pid ds := by
  simp only [deltaSum, List.filter_cons]
  by_cases h : (pid == d.1) = true <;> simp [h]

theorem applyDeltas_eq (ds : List (Nat × Int)) : ∀ inv : List InventoryRow,
    applyDeltas inv ds =
      inv.map (fun r => { r with quantity := r.quantity + deltaSum r.product_id ds }) := by
  induction ds with
  | nil =>
    intro inv
    have h : (fun r : InventoryRow => { r with quantity := r.quantity + deltaSum r.product_id [] })
        = id := by
      funext r
      simp [deltaSum_nil]
    rw [h, List.map_id]
    rfl
  | cons d ds ih =>
    intro inv
    show applyDeltas (adjustQty d.1 d.2 inv) ds = _
    rw [ih (adjustQty d.1 d.2 inv)]
    unfold adjustQty
    rw [List.map_map]
    apply map_ext_mem
    intro r _
    by_cases hb : (r.product_id == d.1) = true
    · simp [Function.comp, hb, deltaSum_cons, add_assoc]
    · simp [Function.comp, Bool.of_not_eq_true hb, deltaSum_cons, hb]

theorem deltaSum_map_neg (pid : Nat) (l : List (Nat × Int)) :
    deltaSum pid (l.map (fun d => (d.1, -d.2))) = -deltaSum pid l := by
  induction l with
  | nil => rfl
  | cons d ds ih =>
    rw [List.map_cons, deltaSum_cons, deltaSum_cons, ih]
    by_cases h : (pid == d.1) = true <;> simp [h] <;> ring

theorem applyDeltas_cancel (inv : List InventoryRow) (l : List (Nat × Int)) :
    applyDeltas (applyDeltas inv (l.map (fun d => (d.1, -d.2)))) l = inv := by
  rw [applyDeltas_eq, applyDeltas_eq, List.map_map]
  have h : ∀ r ∈ inv,
      ((fun r : InventoryRow => { r with quantity := r.quantity + deltaSum r.product_id l }) ∘
        (fun r : InventoryRow =>
          { r with quantity :=
              r.quantity + deltaSum r.product_id (l.map (fun d => (d.1, -d.2))) })) r = id r := by
    intro r _
    cases r with
    | mk pid q =>
      simp only [Function.comp, id, deltaSum_map_neg]
      congr 1
      ring
  rw [map_ext_mem inv _ id h, List.map_id]

/-! ## Inversion lemmas for the order workflow -/

theorem calculateOrderTotal_ok {db : Db} :
    ∀ {items : List OrderItemReq} {acc t : Int},
      calculateOrderTotal db items acc = Except.ok t → t = acc + orderTotalSpec db items
  | [], acc, t, h => by
    simp only [calculateOrderTotal] at h
    injection h with h
    simp [orderTotalSpec, ← h]
  | it :: rest, acc, t, h => by
    simp only [calculateOrderTotal] at h
    cases hp : db.findProduct it.product_id with
    | none =>
      rw [hp] at h
      exact Except.noConfusion h
    | some p =>
      rw [hp] at h
      have ih := calculateOrderTotal_ok h
      simp only [orderTotalSpec, List.map_cons, List.sum_cons] at *
      rw [ih]
      simp only [priceAt, hp]
      ring

theorem createOrderItemsLoop_ok {orderId : Nat} :
    ∀ {items : List OrderItemReq} {db db' : Db},
    createOrderItemsLoop orderId db items = Except.ok db' →
    db'.users = db.users ∧ db'.products = db.products ∧ db'.orders = db.orders ∧
    db'.reviews = db.reviews ∧ db'.nextOrderId = db.nextOrderId ∧
    db'.nextReviewId = db.nextReviewId ∧
    db'.inventory = applyDeltas db.inventory (items.map (fun it => (it.product_id, -it.quantity))) ∧
    ∃ created : List OrderItemRow,
      db'.orderItems = db.orderItems ++ created ∧
      (∀ oi ∈ created, oi.order_id = orderId ∧ 1 ≤ oi.quantity ∧
        oi.unit_price = priceAt db oi.product_id ∧
        oi.total_price = oi.unit_price * oi.quantity) ∧
      created.map (fun oi => (oi.product_id, oi.quantity)) =
        items.map (fun it => (it.product_id, it.quantity))
  | [], db, db', h => by
    injection h with h
    subst h
    refine ⟨rfl, rfl, rfl, rfl, rfl, rfl, rfl, [], (List.append_nil _).symm, ?_, rfl⟩
    intro oi hoi
    exact absurd hoi (List.not_mem_nil oi)
  | item :: rest, db, db', h => by
    simp only [createOrderItemsLoop] at h
    cases hp : db.findProduct item.product_id with
    | none =>
      simp only [hp] at h
      exact Except.noConfusion h
    | some product =>
      simp only [hp] at h
      by_cases hv : orderItemCreateValid
          { id := db.nextOrderItemId, order_id := orderId, product_id := item.product_id,
            quantity := item.quantity, unit_price := product.price,
            total_price := product.price * item.quantity } = true
      · rw [if_pos hv] at h
        obtain ⟨h1, h2, h3, h4, h5, h6, h7, created, hc1, hc2, hc3⟩ :=
          createOrderItemsLoop_ok h
        simp only [orderItemCreateValid, Bool.and_eq_true, decide_eq_true_eq] at hv
        obtain ⟨⟨⟨⟨hvo, hvp⟩, hvq⟩, hvu⟩, hvt⟩ := hv
        refine ⟨h1, h2, h3, h4, h5, h6, ?_, ?_⟩
        · exact h7
        · refine ⟨{ id := db.nextOrderItemId,
                    order_id := orderId,
                    product_id := item.product_id,
                    quantity := item.quantity,
                    unit_price := product.price,
                    total_price := if product.price * item.quantity = 0 then product.price * item.quantity else product.price * item.quantity } :: created,
            ?_, ?_, ?_⟩
          · rw [hc1]
            simp [List.append_assoc]
          · intro oi hoi
            cases hoi with
            | head =>
              refine ⟨rfl, hvq, ?_, ?_⟩
              · simp [priceAt, hp]
              · simp only [ite_self]
            | tail _ htail =>
              exact hc2 oi htail
          · rw [List.map_cons, List.map_cons, hc3]
      · rw [if_neg hv] at h
        exact Except.noConfusion h

theorem createOrder_ok {db db' : Db} {od : OrderData} {items : List OrderItemReq} {oid : Nat}
    (h : createOrder db od items = Except.ok (db', oid)) :
    ∃ t : Int,
      oid = db.nextOrderId ∧
      calculateOrderTotal db items 0 = Except.ok t ∧
      db'.users = db.users ∧
      db'.products = db.products ∧
      db'.reviews = db.reviews ∧
      db'.orders = db.orders ++
        [{ id := db.nextOrderId, user_id := od.user_id, status := OrderStatus.pending,
           payment_status := PaymentStatus.pending, total_amount := t,
           shipping_address := od.shipping_address, billing_address := od.billing_address }] ∧
      db'.inventory = applyDeltas db.inventory (items.map (fun it => (it.product_id, -it.quantity))) ∧
      ∃ created : List OrderItemRow,
        db'.orderItems = db.orderItems ++ created ∧
        (∀ oi ∈ created, oi.order_id = oid ∧ 1 ≤ oi.quantity ∧
          oi.unit_price = priceAt db oi.product_id ∧
          oi.total_price = oi.unit_price * oi.quantity) ∧
        created.map (fun oi => (oi.product_id, oi.quantity)) =
          items.map (fun it => (it.product_id, it.quantity)) := by
  simp only [createOrder] at h
  split at h
  · exact Except.noConfusion h
  split at h
  · exact Except.noConfusion h
  split at h
  · exact Except.noConfusion h
  split at h
  · exact Except.noConfusion h
  rename_i t hct
  split at h
  case isFalse => exact Except.noConfusion h
  case isTrue hvalid =>
    split at h
    · exact Except.noConfusion h
    rename_i db2 hl
    injection h with h
    injection h with hdb hoid
    subst hdb
    obtain ⟨h1, h2, h3, h4, h5, h6, h7, created, hc1, hc2, hc3⟩ := createOrderItemsLoop_ok hl
    refine ⟨t, hoid.symm, hct, h1, h2, h4, ?_, ?_, created, hc1, ?_, hc3⟩
    · rw [h3]
    · exact h7
    · intro oi hoi
      obtain ⟨ha, hb, hcp, hd⟩ := hc2 oi hoi
      exact ⟨ha.trans hoid, hb, hcp, hd⟩

/-! ## Inversion lemmas for status updates and cancellation -/

theorem find?_map_status {oid : Nat} (st : OrderStatus) :
    ∀ {l : List OrderRow} {o : OrderRow},
      l.find? (fun x => x.id == oid) = some o →
      (l.map (fun x => if x.id == oid then { x with status := st } else x)).find?
        (fun x => x.id == oid) = some { o with status := st }
  | [], o, hf => by cases hf
  | a :: t, o, hf => by
    by_cases h : (a.id == oid) = true
    · have hao : a = o := by
        rw [List.find?_cons_of_pos t h] at hf
        injection hf
      subst hao
      rw [List.map_cons, List.find?_cons_of_pos]
      · rw [if_pos h]
      · rw [if_pos h]
        exact h
    · have hf2 : t.find? (fun x => x.id == oid) = some o := by
        rw [List.find?_cons_of_neg t h] at hf
        exact hf
      have ih := find?_map_status st (l := t) hf2
      rw [List.map_cons, List.find?_cons_of_neg]
      · exact ih
      · rw [if_neg h]
        exact h

theorem updateOrderStatus_cancelled_eq {db : Db} {oid : Nat} {o : OrderRow}
    (hf : db.orders.find? (fun x => x.id == oid) = some o)
    (hnc : o.status ≠ OrderStatus.cancelled) :
    updateOrderStatus db oid "cancelled" =
      Except.ok (Db.setOrderStatus (releaseOrderStock db oid) oid OrderStatus.cancelled) := by
  have hos : OrderStatus.ofString "cancelled" = some OrderStatus.cancelled := by decide
  simp only [updateOrderStatus, hf, hos]
  rw [if_neg (show ¬(OrderStatus.cancelled = OrderStatus.confirmed ∧
    o.status = OrderStatus.pending) from fun hc => OrderStatus.noConfusion hc.1)]
  rw [if_pos (show True ∧ o.status ≠ OrderStatus.cancelled from ⟨trivial, hnc⟩)]

theorem updateOrderStatus_confirmed_of_ok {db db' : Db} {oid : Nat} {o : OrderRow}
    (hf : db.orders.find? (fun x => x.id == oid) = some o)
    (h : updateOrderStatus db oid "confirmed" = Except.ok db') :
    db' = Db.setOrderStatus db oid OrderStatus.confirmed := by
  have hos : OrderStatus.ofString "confirmed" = some OrderStatus.confirmed := by decide
  simp only [updateOrderStatus, hf, hos] at h
  rw [if_neg (show ¬(OrderStatus.confirmed = OrderStatus.cancelled ∧
    o.status ≠ OrderStatus.cancelled) from fun hc => OrderStatus.noConfusion hc.1)] at h
  split at h
  · split at h
    · exact Except.noConfusion h
    · injection h with h
      exact h.symm
  · injection h with h
    exact h.symm

theorem cancelOrder_restores {db2 : Db} {oid : Nat} {o : OrderRow}
    {inv0 : List InventoryRow} {poss : List (Nat × Int)}
    (hf : db2.orders.find? (fun x => x.id == oid) = some o)
    (hnc : o.status ≠ OrderStatus.cancelled)
    (hnd : o.status ≠ OrderStatus.delivered)
    (hds : (db2.orderItems.filter (fun it => it.order_id == oid)).map
      (fun it => (it.product_id, it.quantity)) = poss)
    (hinv : db2.inventory = applyDeltas inv0 (poss.map (fun d => (d.1, -d.2)))) :
    (okResult (cancelOrder db2 oid)).map (fun d => d.inventory) = some inv0 := by
  simp only [cancelOrder, releaseOrderStock, hf]
  rw [if_neg hnc, if_neg hnd]
  simp only [okResult, Option.map]
  rw [hds, hinv, applyDeltas_cancel]

/-! ## Lemmas for the review workflow -/

theorem updateProductAverageRating_eq (db : Db) (pid : Nat) :
    updateProductAverageRating db pid = db := by
  simp [updateProductAverageRating]

theorem verifyPurchase_iff (db : Db) (userId productId : Nat) :
    verifyPurchase db userId productId = true ↔ verifiedPurchaseSpec db userId productId := by
  simp only [verifyPurchase, verifiedPurchaseSpec, List.any_eq_true, Bool.and_eq_true,
    Bool.or_eq_true, beq_iff_eq]
  constructor
  · rintro ⟨it, hit, h1, o, ho, ⟨h2, h3⟩, h4⟩
    exact ⟨it, hit, h1, o, ho, h2, h3, by tauto⟩
  · rintro ⟨it, hit, h1, o, ho, h2, h3, h4⟩
    exact ⟨it, hit, h1, o, ho, ⟨h2, h3⟩, by tauto⟩

theorem createReview_ok {db db' : Db} {rd : ReviewData} {rid : Nat}
    (h : createReview db rd = Except.ok (db', rid)) :
    rid = db.nextReviewId ∧
    db'.reviews = db.reviews ++
      [{ id := db.nextReviewId, product_id := rd.product_id, user_id := rd.user_id,
         rating := rd.rating, comment := rd.comment,
         is_verified_purchase := verifyPurchase db rd.user_id rd.product_id }] := by
  simp only [createReview] at h
  split at h
  · exact Except.noConfusion h
  split at h
  · exact Except.noConfusion h
  split at h
  · exact Except.noConfusion h
  split at h
  · rw [updateProductAverageRating_eq] at h
    injection h with h
    injection h with hdb hrid
    subst hdb
    exact ⟨hrid.symm, rfl⟩
  · exact Except.noConfusion h

/-! ## Claim theorems for the order and review workflows -/

/-- Claim C2: a createOrder call in which some requested item's quantity
exceeds the available inventory quantity (the code also counts a missing
inventory row as unavailable) fails with BusinessLogicError whose message
names the unavailable products, the failing item's display name among
them.  The call is one rolled-back transaction, so the error result leaves
the orders, order_items and inventory tables exactly as before the call:
no partial order row and no partial stock deduction is possible. -/
theorem claim_C2_insufficient_stock_rejected (db : Db) (od : OrderData)
    (items : List OrderItemReq) (it0 : OrderItemReq)
    (hu : od.user_id ∈ db.users) (hmem : it0 ∈ items)
    (hshort : stockShort db it0 = true) :
    createOrder db od items =
      Except.error
        { kind := ErrKind.businessLogic,
          msg := "Stock insuficiente para: " ++
            String.intercalate ", " (validateStockAvailability db items) } ∧
    itemDisplayName db it0 ∈ validateStockAvailability db items := by
  have hmem2 : itemDisplayName db it0 ∈ validateStockAvailability db items := by
    exact List.mem_filterMap.2 ⟨it0, hmem, by rw [if_pos hshort]⟩
  have hne : validateStockAvailability db items ≠ [] := by
    intro hnil
    rw [hnil] at hmem2
    exact List.not_mem_nil _ hmem2
  refine ⟨?_, hmem2⟩
  simp only [createOrder]
  rw [if_neg (fun hn => hn hu), if_neg (List.ne_nil_of_mem hmem), if_pos hne]

theorem claim_C2_witness :
    createOrder exDb2 exOd2 [{ product_id := 2, quantity := 100 }] =
      Except.error
        { kind := ErrKind.businessLogic,
          msg := "Stock insuficiente para: " ++
            String.intercalate ", "
              (validateStockAvailability exDb2 [{ product_id := 2, quantity := 100 }]) } ∧
    itemDisplayName exDb2 { product_id := 2, quantity := 100 } ∈
      validateStockAvailability exDb2 [{ product_id := 2, quantity := 100 }] :=
  claim_C2_insufficient_stock_rejected exDb2 exOd2
    [{ product_id := 2, quantity := 100 }] { product_id := 2, quantity := 100 }
    (by decide) (by decide) (by decide)

/-- Claim C3: creating an order (which decremented each line item's product
inventory by the ordered quantity) and then cancelling it through
cancelOrder — directly from its initial pending state, or after a
successful confirmation — adds back exactly the ordered quantity per line
item, so every product's inventory row returns to its value from before
the order was created (net-zero round trip). -/
theorem claim_C3_cancel_restores_inventory (db db1 db2 : Db) (od : OrderData)
    (items : List OrderItemReq) (oid : Nat)
    (hwf : db.Wf)
    (hco : createOrder db od items = Except.ok (db1, oid))
    (h2 : db2 = db1 ∨ updateOrderStatus db1 oid "confirmed" = Except.ok db2) :
    (okResult (cancelOrder db2 oid)).map (fun d => d.inventory) = some db.inventory := by
  obtain ⟨t, rfl, hct, hu1, hp1, hr1, hord, hinv, created, hitems, hcprops, hcmap⟩ :=
    createOrder_ok hco
  obtain ⟨hwf1, hwf2, hwf3⟩ := hwf
  have hnomatch : ∀ x ∈ db.orders, ((fun x : OrderRow => x.id == db.nextOrderId) x) = false := by
    intro x hx
    rw [beq_eq_false_iff_ne]
    exact Nat.ne_of_lt (hwf1 x hx)
  have hfind1 : db1.orders.find? (fun x => x.id == db.nextOrderId) =
      some { id := db.nextOrderId, user_id := od.user_id, status := OrderStatus.pending,
             payment_status := PaymentStatus.pending, total_amount := t,
             shipping_address := od.shipping_address, billing_address := od.billing_address } := by
    rw [hord, find?_append_of_none _ hnomatch, List.find?_cons_of_pos _ (by simp)]
  have hprefilter : db.orderItems.filter (fun it => it.order_id == db.nextOrderId) = [] :=
    filter_eq_nil_of (fun it hit => by
      rw [beq_eq_false_iff_ne]
      exact Nat.ne_of_lt (hwf2 it hit))
  have hcreatedfilter : created.filter (fun it => it.order_id == db.nextOrderId) = created :=
    filter_eq_self_of (fun it hit => by
      rw [beq_iff_eq]
      exact (hcprops it hit).1)
  have hposs : (db1.orderItems.filter (fun it => it.order_id == db.nextOrderId)).map
      (fun it => (it.product_id, it.quantity)) =
      items.map (fun it => (it.product_id, it.quantity)) := by
    rw [hitems, List.filter_append, hprefilter, hcreatedfilter, List.nil_append, hcmap]
  have hneg : items.map (fun it => (it.product_id, -it.quantity)) =
      (items.map (fun it => (it.product_id, it.quantity))).map (fun d => (d.1, -d.2)) := by
    rw [List.map_map]
    rfl
  cases h2 with
  | inl h2eq =>
    subst h2eq
    exact cancelOrder_restores hfind1 (fun hc => OrderStatus.noConfusion hc)
      (fun hc => OrderStatus.noConfusion hc) hposs (by rw [hinv, hneg])
  | inr h2up =>
    have hdb2 := updateOrderStatus_confirmed_of_ok hfind1 h2up
    subst hdb2
    have hfind2 := find?_map_status OrderStatus.confirmed hfind1
    exact cancelOrder_restores hfind2 (fun hc => OrderStatus.noConfusion hc)
      (fun hc => OrderStatus.noConfusion hc) hposs
      (by
        show db1.inventory = _
        rw [hinv, hneg])

theorem claim_C3_witness :
    (okResult (cancelOrder exDb3c 1)).map (fun d => d.inventory) = some exDb3.inventory :=
  claim_C3_cancel_restores_inventory exDb3 exDb3c exDb3c exOd3
    [{ product_id := 1, quantity := 2 }] 1 (by decide) (by decide) (Or.inl rfl)

/-- Claim C4 counterexample: on a pending, payment-pending order for two
units with stock 3, updateOrderStatus to cancelled succeeds and releases
the stock (3 becomes 5), but the stored payment_status remains pending —
updateOrderStatus never writes payment_status, so the claim that it sets
refunded is false at this input. -/
theorem claim_C4_counterexample :
    (okResult (updateOrderStatus exDb4 1 "cancelled")).map
        (fun d => (d.inventory.map (fun r => r.quantity),
                   d.orders.map (fun o => o.payment_status))) =
      some ([5], [PaymentStatus.pending]) ∧
    PaymentStatus.pending ≠ PaymentStatus.refunded :=
  ⟨by decide, by decide⟩

/-- Claim C4 amended: for an order that is neither cancelled nor delivered,
updateOrderStatus(orderId, cancelled) succeeds, releases all reserved
stock for the order's line items (each inventory row gains the summed
quantities of that order's items for its product), and writes status
cancelled while leaving payment_status unchanged — the stored row keeps
the payment_status it had; only cancelOrder sets refunded. -/
theorem claim_C4_amended (db : Db) (oid : Nat) (o : OrderRow)
    (hf : db.orders.find? (fun x => x.id == oid) = some o)
    (hnc : o.status ≠ OrderStatus.cancelled)
    (hnd : o.status ≠ OrderStatus.delivered) :
    (okResult (updateOrderStatus db oid "cancelled")).map (fun d => d.inventory) =
      some (releasedInventorySpec db oid) ∧
    (okResult (updateOrderStatus db oid "cancelled")).map
        (fun d => d.orders.find? (fun x => x.id == oid)) =
      some (some { o with status := OrderStatus.cancelled }) := by
  rw [updateOrderStatus_cancelled_eq hf hnc]
  constructor
  · show some (applyDeltas db.inventory
        ((db.orderItems.filter (fun it => it.order_id == oid)).map
          (fun it => (it.product_id, it.quantity)))) = _
    rw [applyDeltas_eq]
    rfl
  · show some ((db.orders.map (fun x =>
        if x.id == oid then { x with status := OrderStatus.cancelled } else x)).find?
          (fun x => x.id == oid)) = _
    rw [find?_map_status OrderStatus.cancelled hf]

theorem claim_C4_witness :
    (okResult (updateOrderStatus exDb4 1 "cancelled")).map (fun d => d.inventory) =
      some (releasedInventorySpec exDb4 1) ∧
    (okResult (updateOrderStatus exDb4 1 "cancelled")).map
        (fun d => d.orders.find? (fun x => x.id == 1)) =
      some (some { id := 1, user_id := 1, status := OrderStatus.cancelled,
                   payment_status := PaymentStatus.pending, total_amount := 20,
                   shipping_address := exAddr, billing_address := exAddr }) :=
  claim_C4_amended exDb4 1
    { id := 1, user_id := 1, status := OrderStatus.pending,
      payment_status := PaymentStatus.pending, total_amount := 20,
      shipping_address := exAddr, billing_address := exAddr }
    (by decide) (by decide) (by decide)

/-- Claim C5 counterexample: an order in status delivered transitions to
cancelled through a single updateOrderStatus call — updateOrderStatus does
not guard against the delivered state (only cancelOrder does), so the
claim that delivered never reaches cancelled is false at this input. -/
theorem claim_C5_counterexample :
    exDb5.orders.map (fun o => o.status) = [OrderStatus.delivered] ∧
    (okResult (updateOrderStatus exDb5 1 "cancelled")).map
        (fun d => d.orders.map (fun o => o.status)) = some [OrderStatus.cancelled] :=
  ⟨by decide, by decide⟩

/-- Claim C5 amended: cancelOrder rejects a delivered order with
BusinessLogicError, but updateOrderStatus(orderId, cancelled) performs the
transition from delivered as a plain status write (with stock release), so
cancelled is reachable from delivered via updateOrderStatus. -/
theorem claim_C5_amended (db : Db) (oid : Nat) (o : OrderRow)
    (hf : db.orders.find? (fun x => x.id == oid) = some o)
    (hd : o.status = OrderStatus.delivered) :
    cancelOrder db oid =
      Except.error
        { kind := ErrKind.businessLogic,
          msg := "No se puede cancelar un pedido ya entregado" } ∧
    (okResult (updateOrderStatus db oid "cancelled")).map
        (fun d => d.orders.find? (fun x => x.id == oid)) =
      some (some { o with status := OrderStatus.cancelled }) := by
  have hnc : o.status ≠ OrderStatus.cancelled := by
    rw [hd]
    decide
  constructor
  · simp only [cancelOrder, hf]
    rw [if_neg hnc, if_pos hd]
  · rw [updateOrderStatus_cancelled_eq hf hnc]
    show some ((db.orders.map (fun x =>
        if x.id == oid then { x with status := OrderStatus.cancelled } else x)).find?
          (fun x => x.id == oid)) = _
    rw [find?_map_status OrderStatus.cancelled hf]

theorem claim_C5_witness :
    cancelOrder exDb5 1 =
      Except.error
        { kind := ErrKind.businessLogic,
          msg := "No se puede cancelar un pedido ya entregado" } ∧
    (okResult (updateOrderStatus exDb5 1 "cancelled")).map
        (fun d => d.orders.find? (fun x => x.id == 1)) =
      some (some { id := 1, user_id := 1, status := OrderStatus.cancelled,
                   payment_status := PaymentStatus.paid, total_amount := 20,
                   shipping_address := exAddr, billing_address := exAddr }) :=
  claim_C5_amended exDb5 1
    { id := 1, user_id := 1, status := OrderStatus.delivered,
      payment_status := PaymentStatus.paid, total_amount := 20,
      shipping_address := exAddr, billing_address := exAddr }
    (by decide) (by decide)

/-- Claim C6: on every successful createOrder, the stored order's
total_amount equals the sum over the requested items of the product's price
at order time times the requested quantity, and every stored line item of
that order snapshots unit_price from the product's price at order time and
has total_price equal to unit_price times quantity. -/
theorem claim_C6_totals (db db' : Db) (od : OrderData) (items : List OrderItemReq)
    (oid : Nat) (oi : OrderItemRow)
    (hwf : db.Wf) (h : createOrder db od items = Except.ok (db', oid))
    (hmem : oi ∈ db'.orderItems) (hoid : oi.order_id = oid) :
    (db'.orders.find? (fun x => x.id == oid)).map (fun x => x.total_amount) =
      some (orderTotalSpec db items) ∧
    oi.unit_price = priceAt db oi.product_id ∧
    oi.total_price = oi.unit_price * oi.quantity := by
  obtain ⟨t, rfl, hct, hu1, hp1, hr1, hord, hinv, created, hitems, hcprops, hcmap⟩ :=
    createOrder_ok h
  obtain ⟨hwf1, hwf2, hwf3⟩ := hwf
  have ht : t = orderTotalSpec db items := by
    have h0 := calculateOrderTotal_ok hct
    simpa using h0
  have hnomatch : ∀ x ∈ db.orders, ((fun x : OrderRow => x.id == db.nextOrderId) x) = false := by
    intro x hx
    rw [beq_eq_false_iff_ne]
    exact Nat.ne_of_lt (hwf1 x hx)
  constructor
  · rw [hord, find?_append_of_none _ hnomatch, List.find?_cons_of_pos _ (by simp)]
    simp [ht]
  · rw [hitems] at hmem
    rcases List.mem_append.1 hmem with hmem1 | hmem2
    · exfalso
      have hlt := hwf2 oi hmem1
      omega
    · exact ⟨(hcprops oi hmem2).2.2.1, (hcprops oi hmem2).2.2.2⟩

theorem claim_C6_witness :
    (exDb6c.orders.find? (fun x => x.id == 1)).map (fun x => x.total_amount) =
      some (orderTotalSpec exDb6 [{ product_id := 1, quantity := 2 }]) ∧
    (10 : Int) = priceAt exDb6 1 ∧
    (20 : Int) = 10 * 2 :=
  claim_C6_totals exDb6 exDb6c exOd6 [{ product_id := 1, quantity := 2 }] 1
    { id := 1, order_id := 1, product_id := 1, quantity := 2,
      unit_price := 10, total_price := 20 }
    (by decide) (by decide) (by decide) (by decide)

/-- Claim C7 counterexample: a request whose single item has quantity 0
passes the service's own checks (the empty-items test and the stock test
do not catch it) and fails only at the OrderItem model's quantity
validation, surfacing as a generic wrapped Error — not as the service's
ValidationError, contrary to the claim. -/
theorem claim_C7_counterexample :
    createOrder exDb7 exOd7 [{ product_id := 1, quantity := 0 }] =
      Except.error { kind := ErrKind.generic, msg := "Error al crear pedido: Validation error" } ∧
    ErrKind.generic ≠ ErrKind.validation :=
  ⟨by decide, by decide⟩

/-- Claim C7 amended: createOrder rejects an empty items list with
ValidationError; a request in which some item has a non-positive quantity
also never creates an order — createOrder cannot succeed on it, because
the OrderItem model validates quantity at least 1 — but that failure is a
generic wrapped error rather than the service's ValidationError; the
per-item positive-quantity ValidationError is raised by
OrderController.createOrder before the service is called. -/
theorem claim_C7_amended (db : Db) (od : OrderData) (items : List OrderItemReq)
    (it0 : OrderItemReq)
    (hu : od.user_id ∈ db.users) (hu0 : od.user_id ≠ 0)
    (hmem : it0 ∈ items) (hq : it0.quantity ≤ 0) :
    createOrder db od [] =
      Except.error
        { kind := ErrKind.validation, msg := "El pedido debe contener al menos un item" } ∧
    okResult (createOrder db od items) = none ∧
    controllerValidateCreateOrder od.user_id items =
      Except.error
        { kind := ErrKind.validation,
          msg := "Cada item debe tener product_id y quantity valida" } := by
  refine ⟨?_, ?_, ?_⟩
  · simp only [createOrder]
    rw [if_neg (fun hn => hn hu)]
    rw [if_pos trivial]
  · cases hres : createOrder db od items with
    | error e => simp [okResult]
    | ok p =>
      exfalso
      obtain ⟨db', oid⟩ := p
      obtain ⟨t, _, _, _, _, _, _, _, created, _, hcprops, hcmap⟩ := createOrder_ok hres
      have hmm : (it0.product_id, it0.quantity) ∈
          items.map (fun it => (it.product_id, it.quantity)) :=
        List.mem_map.2 ⟨it0, hmem, rfl⟩
      rw [← hcmap] at hmm
      obtain ⟨oi, hoi, hpair⟩ := List.mem_map.1 hmm
      have h1 : 1 ≤ oi.quantity := (hcprops oi hoi).2.1
      have h2 : oi.quantity = it0.quantity := congrArg Prod.snd hpair
      omega
  · simp only [controllerValidateCreateOrder]
    rw [if_neg (fun hc => hc.elim (fun h0 => hu0 h0)
      (fun he => List.ne_nil_of_mem hmem he))]
    rw [if_pos (by
      rw [List.any_eq_true]
      exact ⟨it0, hmem, by simp [hq]⟩)]

theorem claim_C7_witness :
    createOrder exDb7 exOd7 [] =
      Except.error
        { kind := ErrKind.validation, msg := "El pedido debe contener al menos un item" } ∧
    okResult (createOrder exDb7 exOd7 [{ product_id := 1, quantity := 0 }]) = none ∧
    controllerValidateCreateOrder exOd7.user_id [{ product_id := 1, quantity := 0 }] =
      Except.error
        { kind := ErrKind.validation,
          msg := "Cada item debe tener product_id y quantity valida" } :=
  claim_C7_amended exDb7 exOd7 [{ product_id := 1, quantity := 0 }]
    { product_id := 1, quantity := 0 } (by decide) (by decide) (by decide) (by decide)

/-- Claim C8: on every successful createReview, the stored review's
is_verified_purchase flag is true exactly when, in the pre-call state,
some OrderItem of the reviewed product sits on an Order owned by the
reviewing user whose status is confirmed, shipped or delivered; the review
is stored under the returned id. -/
theorem claim_C8_verified_purchase (db db' : Db) (rd : ReviewData) (rid : Nat)
    (hwf : db.Wf) (h : createReview db rd = Except.ok (db', rid)) :
    ((db'.reviews.find? (fun r => r.id == rid)).map (fun r => r.is_verified_purchase)
        = some true ↔ verifiedPurchaseSpec db rd.user_id rd.product_id) ∧
    (db'.reviews.find? (fun r => r.id == rid)).isSome = true := by
  obtain ⟨rfl, hrv⟩ := createReview_ok h
  obtain ⟨hwfa, hwfb, hwf3⟩ := hwf
  have hfind : db'.reviews.find? (fun r => r.id == db.nextReviewId) =
      some { id := db.nextReviewId, product_id := rd.product_id, user_id := rd.user_id,
             rating := rd.rating, comment := rd.comment,
             is_verified_purchase := verifyPurchase db rd.user_id rd.product_id } := by
    rw [hrv, find?_append_of_none _ (fun r hr => by
      rw [beq_eq_false_iff_ne]
      exact Nat.ne_of_lt (hwf3 r hr)), List.find?_cons_of_pos _ (by simp)]
  rw [hfind]
  constructor
  · show some (verifyPurchase db rd.user_id rd.product_id) = some true ↔ _
    rw [Option.some.injEq]
    exact verifyPurchase_iff db rd.user_id rd.product_id
  · rfl

theorem claim_C8_witness :
    ((exDb8c.reviews.find? (fun r => r.id == 1)).map (fun r => r.is_verified_purchase)
        = some true ↔ verifiedPurchaseSpec exDb8 exRd8.user_id exRd8.product_id) ∧
    (exDb8c.reviews.find? (fun r => r.id == 1)).isSome = true :=
  claim_C8_verified_purchase exDb8 exDb8c exRd8 1 (by decide) (by decide)

/-- Claim C9: when a (user, product) pair already has a stored review, a
second createReview for the same pair fails with ConflictError; the
conflict is detected before any write, and the rolled-back transaction
leaves the stored review's rating, comment and is_verified_purchase
exactly as they were. -/
theorem claim_C9_duplicate_review_conflict (db : Db) (rd : ReviewData) (r0 : ReviewRow)
    (hu : rd.user_id ∈ db.users) (hp : (db.findProduct rd.product_id).isSome = true)
    (hr : r0 ∈ db.reviews) (hrp : r0.product_id = rd.product_id)
    (hru : r0.user_id = rd.user_id) :
    createReview db rd =
      Except.error { kind := ErrKind.conflict, msg := "Ya has resenado este producto" } := by
  have hnone : (db.findProduct rd.product_id).isNone = false := by
    cases hfp : db.findProduct rd.product_id with
    | none =>
      rw [hfp] at hp
      exact absurd hp (by decide)
    | some p => rfl
  have hdup : (db.reviews.find? (fun r =>
      r.product_id == rd.product_id && r.user_id == rd.user_id)).isSome = true :=
    find?_isSome_of_mem hr (by simp [hrp, hru])
  simp only [createReview]
  rw [if_neg (fun hn => hn hu)]
  rw [if_neg (fun hc => by
    rw [hnone] at hc
    exact Bool.noConfusion hc)]
  rw [if_pos hdup]

theorem claim_C9_witness :
    createReview exDb9 exRd9 =
      Except.error { kind := ErrKind.conflict, msg := "Ya has resenado este producto" } :=
  claim_C9_duplicate_review_conflict exDb9 exRd9
    { id := 1, product_id := 1, user_id := 1, rating := 4, comment := none,
      is_verified_purchase := false }
    (by decide) (by decide) (by decide) (by decide) (by decide)

/-- Claim C10 (code bug): deleting the last review of a product succeeds
and the service computes the empty-aggregate values — AVG over no rows is
NULL, coerced to 0, and count 0 — but the Product model defines neither an
average_rating nor a review_count attribute, so Sequelize drops both keys
of the Product.update call (productRatingUpdateFields is empty) and nothing
is persisted on the product row: the products table is bit-for-bit
unchanged, contrary to the claim that 0 and 0 are persisted. -/
theorem claim_C10_no_persisted_aggregate :
    productRatingUpdateFields = [] ∧
    deleteReview exDb10 1 = Except.ok { exDb10 with reviews := [] } ∧
    ({ exDb10 with reviews := ([] : List ReviewRow) }).products = exDb10.products ∧
    computedRatingAggregate { exDb10 with reviews := ([] : List ReviewRow) } 1 = (0, 0) := by
  refine ⟨by decide, by decide, rfl, ?_⟩
  simp only [computedRatingAggregate]
  norm_num [roundTo1, jsRound]

end ECommerce
